import Mathlib

/-!
Shallow embedding of `src/deactivate_user.py`: a batch tool that reads user
rows from a CSV export, validates three required fields, issues one HTTP
deactivation call per user, and appends each successfully processed id to a
durable ledger file (`deactivated.txt`) so reruns skip completed work.

Modelling conventions:
- a Python value that may be `None`, a string, or some non-string object is
  `PyVal`;
- a CSV row (`csv.DictReader` row) is an association list `Row`; `Row.get`
  models `row.get(key)` returning `None` for an absent key;
- the external world of one HTTP call is an `HttpOutcome`: either the
  transport raised, or a response with a status code and a flag saying
  whether `response.json()` parses;
- Python exceptions are the inductive `PyExc`; a function that can raise
  returns `Except PyExc _`;
- the ledger file is `Option (List String)`: `Option.none` when the file does
  not exist, otherwise its lines with their terminators left implicit (the
  program writes one id plus a newline per line).
-/

deriving instance DecidableEq for Except

namespace DeactivateUser

/-- Value of one CSV cell / Python attribute: Python `None`, a `str`, or a
non-string non-None object. -/
inductive PyVal where
  | none
  | str (s : String)
  | other
deriving DecidableEq

/-- One CSV row as produced by `csv.DictReader`: a mapping from column name
to value. -/
abbrev Row := List (String × PyVal)

/-- Model of Python `row.get(key)`: the first value bound to `key`, or `None`
when the key is absent. -/
def Row.get (row : Row) (k : String) : PyVal :=
  match row.find? (fun p => p.1 == k) with
  | Option.some p => p.2
  | Option.none => PyVal.none

/-- Python exceptions that the program can raise. -/
inductive PyExc where
  | transport
  | httpStatus (code : Nat)
  | unboundLocal (name : String)
  | typeError
  | fileNotFound
  | noData
deriving DecidableEq

/-- The `User` class (`User.__init__`, src lines 38-58): every attribute is
read from the row with `row.get`, so an absent column yields `None`. -/
structure User where
  id : PyVal
  first_name : PyVal
  last_name : PyVal
  email : PyVal
  account_types : PyVal
  two_factor_auth : PyVal
  email_verified : PyVal
  invited_by_ID : PyVal
  invited_by_email : PyVal
  last_active : PyVal
  joined : PyVal
  billable : PyVal
  smic_external_ID : PyVal
  smic_title : PyVal
  smic_cost_center : PyVal
  smic_department : PyVal
  smic_division : PyVal
  smic_organization : PyVal
  smic_manager_display_name : PyVal
  smic_manager : PyVal
deriving DecidableEq

/-- `User.__init__(self, row)`: field-by-field `row.get` with the CSV export
column names. -/
def User.ofRow (row : Row) : User where
  id := Row.get row "User ID"
  first_name := Row.get row "User first name"
  last_name := Row.get row "User last name"
  email := Row.get row "User email"
  account_types := Row.get row "Account types"
  two_factor_auth := Row.get row "Two-factor auth enabled?"
  email_verified := Row.get row "Email verified?"
  invited_by_ID := Row.get row "Invited by ID"
  invited_by_email := Row.get row "Invited by email"
  last_active := Row.get row "Last active (UTC)"
  joined := Row.get row "Joined (UTC)"
  billable := Row.get row "Billable?"
  smic_external_ID := Row.get row "SCIM: External ID"
  smic_title := Row.get row "SCIM: Title"
  smic_cost_center := Row.get row "SCIM: Cost center"
  smic_department := Row.get row "SCIM: Department"
  smic_division := Row.get row "SCIM: Division"
  smic_organization := Row.get row "SCIM: Organization"
  smic_manager_display_name := Row.get row "SCIM: Manager display name"
  smic_manager := Row.get row "SCIM: Manager"

/-- Python `v is None`. -/
def pyIsNone : PyVal → Bool
  | PyVal.none => true
  | _ => false

/-- Python `isinstance(v, str)`. -/
def isStrVal : PyVal → Bool
  | PyVal.str _ => true
  | _ => false

/-- The per-field check of the validation gate, src lines 153/157/161:
`v is None or not isinstance(v, str)`. -/
def fieldInvalid (v : PyVal) : Bool :=
  pyIsNone v || !(isStrVal v)

/-- Which required field a validation failure reports. -/
inductive Field where
  | first_name
  | email
  | last_name
deriving DecidableEq

/-- The inline validation gate of `deactivate_user_from_csv`, src lines
152-164: check `first_name`, then `email`, then `last_name`, returning the
first failing field, or `Option.none` when all three pass. -/
def validate (u : User) : Option Field :=
  if fieldInvalid u.first_name then Option.some Field.first_name
  else if fieldInvalid u.email then Option.some Field.email
  else if fieldInvalid u.last_name then Option.some Field.last_name
  else Option.none

/-- The external world of one HTTP call: the transport raised, or a response
arrived with this status code and with `bodyParses` saying whether
`response.json()` succeeds. -/
inductive HttpOutcome where
  | transportError
  | response (status : Nat) (bodyParses : Bool)
deriving DecidableEq

/-- What `requests.patch` binds or raises for a given outcome. -/
structure HttpResponse where
  status_code : Nat
  bodyParses : Bool
deriving DecidableEq

/-- `requests.patch(...)`: raises on a transport failure, otherwise binds the
response object. -/
def requestsPatch (o : HttpOutcome) : Except PyExc HttpResponse :=
  match o with
  | HttpOutcome.transportError => Except.error PyExc.transport
  | HttpOutcome.response s p => Except.ok (HttpResponse.mk s p)

/-- `response.raise_for_status()`: raises `HTTPError` exactly when the status
code is in 400..599, otherwise returns normally. -/
def raise_for_status (r : HttpResponse) : Except PyExc Unit :=
  if 400 ≤ r.status_code ∧ r.status_code < 600 then
    Except.error (PyExc.httpStatus r.status_code)
  else Except.ok ()

/-- `deactivate_user(user, enterprise_account_id)`, src lines 64-98.
The URL is built by string concatenation, so a non-string `user.id` raises
`TypeError` before the try block. Inside the try block: `requests.patch`
(its failure leaves the local `response` unbound), a nested try around
`response.json()` whose exception is swallowed by a bare `except: pass`,
then `response.raise_for_status()`. The except handler formats a log message
that reads `response.request`: when `response` was never bound this read
itself raises `UnboundLocalError`, replacing the original exception;
otherwise the handler re-raises the caught exception. -/
def deactivate_user (user : User) (enterprise_account_id : String)
    (o : HttpOutcome) : Except PyExc Unit :=
  match user.id with
  | PyVal.str _ =>
    (match requestsPatch o with
     | Except.error _ => Except.error (PyExc.unboundLocal "response")
     | Except.ok response =>
       match raise_for_status response with
       | Except.error e => Except.error e
       | Except.ok _ => Except.ok ())
  | _ =>
    let _ := enterprise_account_id
    Except.error PyExc.typeError

/-- Whitespace characters Python `str.rstrip()` strips by default (the ASCII
ones: space, tab, newline, carriage return, vertical tab, form feed). -/
def pyIsSpace (c : Char) : Bool :=
  c == ' ' || c == '\t' || c == '\n' || c == '\r' || c == Char.ofNat 11 || c == Char.ofNat 12

/-- Python `str.rstrip()`: drop trailing whitespace characters. -/
def rstrip (s : String) : String :=
  String.mk ((s.data.reverse.dropWhile pyIsSpace).reverse)

/-- Opening the ledger file for reading: raises `FileNotFoundError` when the
file does not exist. -/
def openRead (fs : Option (List String)) : Except PyExc (List String) :=
  match fs with
  | Option.some lines => Except.ok lines
  | Option.none => Except.error PyExc.fileNotFound

/-- `load_cached_processed()`, src lines 105-114: if the ledger file exists,
read it and return `[line.rstrip() for line in f]`; otherwise return `[]`
without touching the file system. -/
def load_cached_processed (fs : Option (List String)) : Except PyExc (List String) :=
  if fs.isSome then
    match openRead fs with
    | Except.ok lines => Except.ok (lines.map rstrip)
    | Except.error e => Except.error e
  else Except.ok []

/-- Truth value Python assigns to a `csv.DictReader` object: the class
defines neither a length nor a boolean conversion, so the object is always
truthy, for an empty file as well. -/
def csvReaderTruthy (rows : List Row) : Bool :=
  let _ := rows
  true

/-- `yield_from_CSV(csv_file_path)`, src lines 117-127: raise
`Exception("No data found ...")` when `not csv_reader`, otherwise yield the
rows. Because `csvReaderTruthy` is constantly true, the raise is dead code. -/
def yield_from_CSV (rows : List Row) : Except PyExc (List Row) :=
  if !(csvReaderTruthy rows) then Except.error PyExc.noData
  else Except.ok rows

/-- Python `x in cached_processed` for a list of strings: only a string can
compare equal to a string. -/
def pyIn (v : PyVal) (l : List String) : Bool :=
  match v with
  | PyVal.str s => l.contains s
  | _ => false

/-- Python f-string rendering of a value, used by `fp.write(f"{user.id}\n")`. -/
def pyStr : PyVal → String
  | PyVal.none => "None"
  | PyVal.str s => s
  | PyVal.other => "<object>"

/-- Terminal state of one record in the batch loop. -/
inductive Outcome where
  | skipped
  | invalid
  | succeeded
  | failedCall
deriving DecidableEq

/-- Mutable state of `deactivate_user_from_csv`'s loop: the two in-memory
accumulators of the source (`deactivated_users`, `failed`), plus the durable
ledger file contents, a trace of Deactivation Client invocations, and the
terminal state of each record — the latter three are observation bookkeeping
for the proofs, appended exactly where the source performs the corresponding
action. -/
structure RunResult where
  deactivated_users : List PyVal
  failed : List User
  calls : List User
  outcomes : List Outcome
  ledgerLines : List String
deriving DecidableEq

/-- One iteration of the loop of `deactivate_user_from_csv`, src lines
145-177: build the `User`, skip when `user.id in cached_processed`, run the
three validation checks (appending to `failed` on the first failure),
otherwise call `deactivate_user`; on success append `user.id` to
`deactivated_users` and write a ledger line, on an exception append the user
to `failed`. -/
def processRecord (cached : List String) (account_id : String)
    (st : RunResult) (rec : Row × HttpOutcome) : RunResult :=
  let user := User.ofRow rec.1
  if pyIn user.id cached then
    { st with outcomes := st.outcomes ++ [Outcome.skipped] }
  else
    match validate user with
    | Option.some _ =>
      { st with failed := st.failed ++ [user],
                outcomes := st.outcomes ++ [Outcome.invalid] }
    | Option.none =>
      match deactivate_user user account_id rec.2 with
      | Except.ok _ =>
        { st with calls := st.calls ++ [user],
                  deactivated_users := st.deactivated_users ++ [user.id],
                  ledgerLines := st.ledgerLines ++ [pyStr user.id],
                  outcomes := st.outcomes ++ [Outcome.succeeded] }
      | Except.error _ =>
        { st with calls := st.calls ++ [user],
                  failed := st.failed ++ [user],
                  outcomes := st.outcomes ++ [Outcome.failedCall] }

/-- Loop state before the first record: empty accumulators, ledger file as
found on disk. -/
def initResult (fs : Option (List String)) : RunResult where
  deactivated_users := []
  failed := []
  calls := []
  outcomes := []
  ledgerLines := fs.getD []

/-- The account id, validated non-empty at process start. -/
def theAccountId : String := "acct"

/-- `deactivate_user_from_csv(csv_path)`, src lines 130-181: load the cached
ids, iterate the CSV rows, and finish with the summary counts
(`len(deactivated_users)`, `len(failed)`). Each row is paired with the
`HttpOutcome` the external world would give its HTTP call. -/
def deactivate_user_from_csv (fs : Option (List String))
    (input : List (Row × HttpOutcome)) : Except PyExc (RunResult × Nat × Nat) :=
  match load_cached_processed fs with
  | Except.error e => Except.error e
  | Except.ok cached =>
    match yield_from_CSV (input.map Prod.fst) with
    | Except.error e => Except.error e
    | Except.ok _ =>
      let r := input.foldl (processRecord cached theAccountId) (initResult fs)
      Except.ok (r, r.deactivated_users.length, r.failed.length)

/-- The in-memory cache a run starts from: the rstripped ledger lines. -/
def cachedIds (fs : Option (List String)) : List String :=
  (fs.getD []).map rstrip

/-- The loop state a completed run ends with. -/
def runResult (fs : Option (List String)) (input : List (Row × HttpOutcome)) : RunResult :=
  input.foldl (processRecord (cachedIds fs) theAccountId) (initResult fs)

/-- Client-invocation trace of a completed run ([] when the run raised). -/
def runCalls (fs : Option (List String)) (input : List (Row × HttpOutcome)) : List User :=
  match deactivate_user_from_csv fs input with
  | Except.ok (r, _, _) => r.calls
  | Except.error _ => []

/-- Failure Collection of a completed run ([] when the run raised). -/
def runFailed (fs : Option (List String)) (input : List (Row × HttpOutcome)) : List User :=
  match deactivate_user_from_csv fs input with
  | Except.ok (r, _, _) => r.failed
  | Except.error _ => []

/-- Summary counts printed at the end of a run, `Option.none` when the run
raised before reaching the summary. -/
def runSummary (fs : Option (List String)) (input : List (Row × HttpOutcome)) :
    Option (Nat × Nat) :=
  match deactivate_user_from_csv fs input with
  | Except.ok (_, s, f) => Option.some (s, f)
  | Except.error _ => Option.none

/-- Does a record reach the Deactivation Client: not ledgered and valid. -/
def attempted (cached : List String) (rec : Row × HttpOutcome) : Bool :=
  let u := User.ofRow rec.1
  !(pyIn u.id cached) && (validate u).isNone

/-- Is an `Except` value a normal return. -/
def exceptOk {α β : Type} : Except α β → Bool
  | Except.ok _ => true
  | Except.error _ => false

/-- Does a record's client call return success. -/
def callSucceeds (cached : List String) (rec : Row × HttpOutcome) : Bool :=
  attempted cached rec && exceptOk (deactivate_user (User.ofRow rec.1) theAccountId rec.2)

/-- Does a record land in the Failure Collection: not ledgered, and either
invalid or its call raised. -/
def collectsFailure (cached : List String) (rec : Row × HttpOutcome) : Bool :=
  let u := User.ofRow rec.1
  !(pyIn u.id cached) && (!((validate u).isNone) || !(exceptOk (deactivate_user u theAccountId rec.2)))

/-- Terminal state of one record. -/
def outcomeOf (cached : List String) (rec : Row × HttpOutcome) : Outcome :=
  let u := User.ofRow rec.1
  if pyIn u.id cached then Outcome.skipped
  else
    match validate u with
    | Option.some _ => Outcome.invalid
    | Option.none =>
      match deactivate_user u theAccountId rec.2 with
      | Except.ok _ => Outcome.succeeded
      | Except.error _ => Outcome.failedCall

/-- Concrete data: the row of spec Scenario A. -/
def rowAlice : Row :=
  [("User ID", PyVal.str "usr1"), ("User first name", PyVal.str "Alice"),
   ("User last name", PyVal.str "Smith"), ("User email", PyVal.str "a@x.com")]

/-- The user built from `rowAlice`. -/
def userAlice : User := User.ofRow rowAlice

/-- A successful HTTP outcome: status 200, parseable body. -/
def ok200 : HttpOutcome := HttpOutcome.response 200 true

/-- A row whose first-name column is absent but which carries a ledgered id. -/
def rowBadFirst : Row :=
  [("User ID", PyVal.str "u1"), ("User last name", PyVal.str "B"),
   ("User email", PyVal.str "e")]

/-- A row with the three required fields present but no "User ID" column. -/
def rowNoId : Row :=
  [("User first name", PyVal.str "A"), ("User email", PyVal.str "e"),
   ("User last name", PyVal.str "B")]


theorem load_cached_processed_eq (fs : Option (List String)) :
    load_cached_processed fs = Except.ok (cachedIds fs) := by
  cases fs <;> simp [load_cached_processed, openRead, cachedIds]

theorem processRecord_eq (c : List String) (st : RunResult) (rec : Row × HttpOutcome) :
    processRecord c theAccountId st rec =
      RunResult.mk
        (st.deactivated_users ++ (if callSucceeds c rec then [(User.ofRow rec.1).id] else []))
        (st.failed ++ (if collectsFailure c rec then [User.ofRow rec.1] else []))
        (st.calls ++ (if attempted c rec then [User.ofRow rec.1] else []))
        (st.outcomes ++ [outcomeOf c rec])
        (st.ledgerLines ++ (if callSucceeds c rec then [pyStr (User.ofRow rec.1).id] else [])) := by
  unfold processRecord callSucceeds collectsFailure attempted outcomeOf
  by_cases h : pyIn (User.ofRow rec.1).id c = true
  · simp [h]
  · simp only [h, Bool.false_eq_true, if_false, Bool.not_false, Bool.true_and]
    cases hv : validate (User.ofRow rec.1) with
    | some f => simp [hv, exceptOk]
    | none =>
      cases hd : deactivate_user (User.ofRow rec.1) theAccountId rec.2 with
      | ok u => simp [hv, hd, exceptOk]
      | error e => simp [hv, hd, exceptOk]

theorem foldl_run (c : List String) (input : List (Row × HttpOutcome)) :
    ∀ st : RunResult, List.foldl (processRecord c theAccountId) st input =
      RunResult.mk
        (st.deactivated_users ++ (input.filter (callSucceeds c)).map (fun rec => (User.ofRow rec.1).id))
        (st.failed ++ (input.filter (collectsFailure c)).map (fun rec => User.ofRow rec.1))
        (st.calls ++ (input.filter (attempted c)).map (fun rec => User.ofRow rec.1))
        (st.outcomes ++ input.map (outcomeOf c))
        (st.ledgerLines ++ (input.filter (callSucceeds c)).map (fun rec => pyStr (User.ofRow rec.1).id)) := by
  induction input with
  | nil => intro st; simp
  | cons rec l ih =>
    intro st
    rw [List.foldl_cons, processRecord_eq, ih]
    by_cases h1 : callSucceeds c rec = true <;>
      by_cases h2 : collectsFailure c rec = true <;>
        by_cases h3 : attempted c rec = true <;>
          simp [h1, h2, h3, List.filter_cons]

theorem deactivate_user_from_csv_eq (fs : Option (List String)) (input : List (Row × HttpOutcome)) :
    deactivate_user_from_csv fs input =
      Except.ok (runResult fs input, (runResult fs input).deactivated_users.length,
        (runResult fs input).failed.length) := by
  simp [deactivate_user_from_csv, load_cached_processed_eq, yield_from_CSV, csvReaderTruthy, runResult]

theorem count_outcomes (l : List Outcome) :
    l.count Outcome.skipped + l.count Outcome.invalid + l.count Outcome.succeeded +
      l.count Outcome.failedCall = l.length := by
  induction l with
  | nil => simp
  | cons a l ih => cases a <;> simp [List.count_cons] <;> omega



/-- C1: the spec says an empty Record Source is fatal, raised before the
per-record loop; in the code the emptiness check `if not csv_reader` is dead
(a `csv.DictReader` object is always truthy), so an empty input raises
nothing, runs the loop zero times, and reaches the summary print with counts
(0, 0). -/
theorem empty_input_runs_to_summary :
    yield_from_CSV [] = Except.ok [] ∧
    deactivate_user_from_csv Option.none [] = Except.ok (initResult Option.none, 0, 0) ∧
    runSummary Option.none [] = Option.some (0, 0) := by
  exact ⟨rfl, rfl, rfl⟩

/-- C2 counterexample: status 304 is not a success (not 2xx), yet
`deactivate_user` treats it as success, because `raise_for_status` only
raises for 400..599. -/
theorem status_304_treated_as_success :
    deactivate_user userAlice theAccountId (HttpOutcome.response 304 true) = Except.ok () ∧
    ¬(200 ≤ 304 ∧ 304 < 300) := by
  exact ⟨rfl, by omega⟩

/-- C2 amended: a response status in 400..599 is a failure carrying that
status; any other status (304 included) is success; the result never depends
on whether the body parses; and a transport failure surfaces as the
handler's unbound-variable error rather than the transport error. -/
theorem deactivate_result_classification (u : User) (s : String) (status : Nat) (p p' : Bool)
    (h : u.id = PyVal.str s) :
    (deactivate_user u theAccountId (HttpOutcome.response status p) = Except.ok () ↔
      ¬(400 ≤ status ∧ status < 600)) ∧
    deactivate_user u theAccountId (HttpOutcome.response status p) =
      deactivate_user u theAccountId (HttpOutcome.response status p') ∧
    ((400 ≤ status ∧ status < 600) →
      deactivate_user u theAccountId (HttpOutcome.response status p) =
        Except.error (PyExc.httpStatus status)) ∧
    deactivate_user u theAccountId HttpOutcome.transportError =
      Except.error (PyExc.unboundLocal "response") := by
  unfold deactivate_user requestsPatch raise_for_status
  rw [h]
  by_cases hs : 400 ≤ status ∧ status < 600 <;> simp [hs]

/-- C2 witness: the classification at a concrete user and status 404. -/
theorem deactivate_result_classification_witness :
    (deactivate_user userAlice theAccountId (HttpOutcome.response 404 true) = Except.ok () ↔
      ¬(400 ≤ 404 ∧ 404 < 600)) ∧
    deactivate_user userAlice theAccountId (HttpOutcome.response 404 true) =
      deactivate_user userAlice theAccountId (HttpOutcome.response 404 false) ∧
    ((400 ≤ 404 ∧ 404 < 600) →
      deactivate_user userAlice theAccountId (HttpOutcome.response 404 true) =
        Except.error (PyExc.httpStatus 404)) ∧
    deactivate_user userAlice theAccountId HttpOutcome.transportError =
      Except.error (PyExc.unboundLocal "response") :=
  deactivate_result_classification userAlice "usr1" 404 true false rfl

/-- C3 counterexample: the in-memory cache is never updated during a run, so
an identifier duplicated in the input gets one Deactivation Client call per
occurrence: with an empty Ledger and two identical valid rows for "usr1",
the client is called twice for that identifier, not once. -/
theorem duplicate_id_called_twice :
    validate userAlice = Option.none ∧
    cachedIds Option.none = [] ∧
    ((runCalls Option.none [(rowAlice, ok200), (rowAlice, ok200)]).filter
      (fun u => u.id == PyVal.str "usr1")).length = 2 ∧
    ¬(((runCalls Option.none [(rowAlice, ok200), (rowAlice, ok200)]).filter
      (fun u => u.id == PyVal.str "usr1")).length = 1) := by
  exact ⟨rfl, rfl, rfl, by decide⟩

/-- C3 amended: a run calls the Deactivation Client exactly once per
non-ledgered, valid record occurrence, in order (zero calls for ledgered
identifiers; a duplicated identifier is called once per occurrence); and
with the Ledger pre-populated with the sole row's id the client is never
invoked and the summary reports 0 succeeded, 0 failed. -/
theorem client_calls_characterization (fs : Option (List String))
    (input : List (Row × HttpOutcome)) :
    (∃ r : RunResult, deactivate_user_from_csv fs input =
        Except.ok (r, r.deactivated_users.length, r.failed.length) ∧
      r.calls = (input.filter (attempted (cachedIds fs))).map (fun rec => User.ofRow rec.1)) ∧
    runCalls (Option.some ["usr1"]) [(rowAlice, ok200)] = [] ∧
    runSummary (Option.some ["usr1"]) [(rowAlice, ok200)] = Option.some (0, 0) := by
  refine ⟨⟨runResult fs input, deactivate_user_from_csv_eq fs input, ?_⟩, by decide, by decide⟩
  rw [runResult, foldl_run]
  simp [initResult]

/-- C4: with an empty Ledger, every record ends in exactly one of the four
terminal states, their counts sum to the input length, no per-record error
escapes the loop, and the summary is always reached. -/
theorem run_total_coverage (input : List (Row × HttpOutcome)) :
    ∃ r : RunResult, deactivate_user_from_csv Option.none input =
        Except.ok (r, r.deactivated_users.length, r.failed.length) ∧
      r.outcomes.length = input.length ∧
      r.outcomes.count Outcome.skipped + r.outcomes.count Outcome.invalid +
        r.outcomes.count Outcome.succeeded + r.outcomes.count Outcome.failedCall
        = input.length ∧
      runSummary Option.none input =
        Option.some (r.deactivated_users.length, r.failed.length) := by
  refine ⟨runResult Option.none input, deactivate_user_from_csv_eq _ _, ?_, ?_, ?_⟩
  · rw [runResult, foldl_run]; simp [initResult]
  · rw [runResult, foldl_run]; simp [initResult, count_outcomes]
  · simp [runSummary, deactivate_user_from_csv_eq]

/-- C5: the durable ledger after any prefix of the run equals its initial
contents followed by exactly the identifiers whose client call returned
success, in order (so each success is durable before the next record starts,
and a failed call appends nothing). -/
theorem ledger_matches_successes (fs : Option (List String))
    (input : List (Row × HttpOutcome)) (k : Nat) :
    ∃ r : RunResult, deactivate_user_from_csv fs (input.take k) =
        Except.ok (r, r.deactivated_users.length, r.failed.length) ∧
      r.ledgerLines = (fs.getD []) ++
        ((input.take k).filter (callSucceeds (cachedIds fs))).map
          (fun rec => pyStr (User.ofRow rec.1).id) ∧
      r.deactivated_users =
        ((input.take k).filter (callSucceeds (cachedIds fs))).map
          (fun rec => (User.ofRow rec.1).id) := by
  refine ⟨runResult fs (input.take k), deactivate_user_from_csv_eq _ _, ?_, ?_⟩ <;>
    · rw [runResult, foldl_run]; simp [initResult]

/-- C6 counterexample: a record missing `first_name` whose id is already in
the Ledger is skipped before validation, so it is not present in the run's
Failure Collection. -/
theorem ledgered_invalid_record_not_collected :
    validate (User.ofRow rowBadFirst) = Option.some Field.first_name ∧
    runFailed (Option.some ["u1"]) [(rowBadFirst, ok200)] = [] ∧
    ¬(User.ofRow rowBadFirst ∈ runFailed (Option.some ["u1"]) [(rowBadFirst, ok200)]) ∧
    runSummary (Option.some ["u1"]) [(rowBadFirst, ok200)] = Option.some (0, 0) := by
  refine ⟨rfl, rfl, ?_, rfl⟩
  intro hmem
  rw [show runFailed (Option.some ["u1"]) [(rowBadFirst, ok200)] = [] from rfl] at hmem
  exact List.not_mem_nil _ hmem

/-- C6 amended: a record with a missing or non-string required field whose
id is not in the Ledger never reaches the Deactivation Client and lands in
the Failure Collection (a ledgered record is skipped instead). -/
theorem validation_gate_for_nonledgered (fs : Option (List String))
    (input : List (Row × HttpOutcome)) (rec : Row × HttpOutcome)
    (hmem : rec ∈ input)
    (hled : pyIn (User.ofRow rec.1).id (cachedIds fs) = false)
    (hval : validate (User.ofRow rec.1) ≠ Option.none) :
    ∃ r : RunResult, deactivate_user_from_csv fs input =
        Except.ok (r, r.deactivated_users.length, r.failed.length) ∧
      User.ofRow rec.1 ∈ r.failed ∧ ¬(User.ofRow rec.1 ∈ r.calls) := by
  have hvn : (validate (User.ofRow rec.1)).isNone = false := by
    cases hv : validate (User.ofRow rec.1) with
    | none => exact absurd hv hval
    | some f => rfl
  refine ⟨runResult fs input, deactivate_user_from_csv_eq fs input, ?_, ?_⟩
  · rw [runResult, foldl_run]
    simp only [initResult, List.nil_append, List.mem_map, List.mem_filter]
    exact ⟨rec, ⟨hmem, by simp [collectsFailure, hled, hvn]⟩, rfl⟩
  · rw [runResult, foldl_run]
    simp only [initResult, List.nil_append, List.mem_map, List.mem_filter, not_exists, not_and]
    intro rec' hm
    rcases hm with ⟨hmem', hatt⟩
    intro heq
    have : (validate (User.ofRow rec'.1)).isNone = true := by
      have h2 := hatt
      unfold attempted at h2
      simp only [Bool.and_eq_true] at h2
      exact h2.2
    rw [heq] at this
    rw [hvn] at this
    exact Bool.false_ne_true this

/-- C6 witness: with no ledger file, a row missing its first-name column is
collected as a failure and never reaches the client. -/
theorem validation_gate_for_nonledgered_witness :
    ∃ r : RunResult, deactivate_user_from_csv Option.none [(rowBadFirst, ok200)] =
        Except.ok (r, r.deactivated_users.length, r.failed.length) ∧
      User.ofRow rowBadFirst ∈ r.failed ∧ ¬(User.ofRow rowBadFirst ∈ r.calls) :=
  validation_gate_for_nonledgered Option.none [(rowBadFirst, ok200)] (rowBadFirst, ok200)
    (by decide) (by decide) (by decide)

/-- C7: the Validator checks `first_name`, then `email`, then `last_name`,
each for presence and string type, reporting the first failing field; the
empty string passes, and a field fails exactly when it is absent (None) or
not a string. -/
theorem validator_order_first_failure_empty_ok (u : User) (s : String) :
    validate u =
      (List.find? (fun p => fieldInvalid p.2)
        [(Field.first_name, u.first_name), (Field.email, u.email),
         (Field.last_name, u.last_name)]).map Prod.fst ∧
    fieldInvalid (PyVal.str s) = false ∧
    (∀ v : PyVal, fieldInvalid v = true ↔ (v = PyVal.none ∨ v = PyVal.other)) := by
  refine ⟨?_, rfl, ?_⟩
  · unfold validate
    by_cases h1 : fieldInvalid u.first_name = true <;>
      by_cases h2 : fieldInvalid u.email = true <;>
        by_cases h3 : fieldInvalid u.last_name = true <;>
          simp [h1, h2, h3, List.find?]
  · intro v
    cases v <;> simp [fieldInvalid, pyIsNone, isStrVal]

/-- C8 counterexample: `rstrip` removes all trailing whitespace, not only
the line terminator: a ledger line holding "u1 " (with a trailing space)
loads as "u1". -/
theorem load_strips_trailing_spaces :
    load_cached_processed (Option.some ["u1 "]) = Except.ok ["u1"] ∧
    ¬(("u1" : String) = "u1 ") := by
  exact ⟨by decide, by decide⟩

/-- C8 amended: the Ledger load returns the file's lines with trailing
whitespace stripped (Python `rstrip`, which removes more than the line
terminator), returns [] when the file is absent, and never raises merely
for absence. -/
theorem load_returns_rstripped_lines (fs : Option (List String)) :
    load_cached_processed fs = Except.ok (cachedIds fs) ∧
    cachedIds fs = (fs.getD []).map rstrip ∧
    load_cached_processed Option.none = Except.ok [] := by
  exact ⟨load_cached_processed_eq fs, rfl, rfl⟩

/-- C9: validation never inspects the id: changing a record's id does not
change the validation result, and a row lacking the "User ID" column but
carrying string values for the three required fields passes validation and
is handed to the Deactivation Client with id = None. -/
theorem missing_id_passes_validation_and_is_called (row : Row) (o : HttpOutcome)
    (hid : Row.get row "User ID" = PyVal.none)
    (hf : isStrVal (Row.get row "User first name") = true)
    (he : isStrVal (Row.get row "User email") = true)
    (hl : isStrVal (Row.get row "User last name") = true) :
    (User.ofRow row).id = PyVal.none ∧
    validate (User.ofRow row) = Option.none ∧
    runCalls Option.none [(row, o)] = [User.ofRow row] ∧
    (∀ u : User, ∀ v : PyVal, validate { u with id := v } = validate u) := by
  have hstr : ∀ v : PyVal, isStrVal v = true → fieldInvalid v = false := by
    intro v hv
    cases v <;> simp [fieldInvalid, pyIsNone, isStrVal] at *
  have hofid : (User.ofRow row).id = PyVal.none := by
    simp [User.ofRow, hid]
  have hvalid : validate (User.ofRow row) = Option.none := by
    unfold validate
    simp [User.ofRow, hstr _ hf, hstr _ he, hstr _ hl]
  refine ⟨hofid, hvalid, ?_, fun u v => rfl⟩
  simp only [runCalls, deactivate_user_from_csv_eq]
  rw [runResult, foldl_run]
  simp [initResult, attempted, cachedIds, pyIn, hofid, hvalid, List.filter_cons]

/-- C9 witness: the concrete row with no "User ID" column. -/
theorem missing_id_passes_validation_witness :
    (User.ofRow rowNoId).id = PyVal.none ∧
    validate (User.ofRow rowNoId) = Option.none ∧
    runCalls Option.none [(rowNoId, HttpOutcome.transportError)] = [User.ofRow rowNoId] ∧
    (∀ u : User, ∀ v : PyVal, validate { u with id := v } = validate u) :=
  missing_id_passes_validation_and_is_called rowNoId HttpOutcome.transportError
    rfl rfl rfl rfl

/-- C10: when the transport raises inside `deactivate_user`, the except
handler's log line reads the unbound local `response` and itself raises
UnboundLocalError, so the error reaching the Batch Runner is the
unbound-variable error, not the transport error; the record still lands in
the Failure Collection and the run continues to the summary. -/
theorem transport_error_masked_by_unbound_local (u : User) (s : String)
    (h : u.id = PyVal.str s) :
    deactivate_user u theAccountId HttpOutcome.transportError =
      Except.error (PyExc.unboundLocal "response") ∧
    ¬(deactivate_user u theAccountId HttpOutcome.transportError =
      Except.error PyExc.transport) ∧
    runFailed Option.none [(rowAlice, HttpOutcome.transportError)] = [userAlice] ∧
    runSummary Option.none [(rowAlice, HttpOutcome.transportError)] = Option.some (0, 1) := by
  have hval : deactivate_user u theAccountId HttpOutcome.transportError =
      Except.error (PyExc.unboundLocal "response") := by
    unfold deactivate_user requestsPatch
    rw [h]
  refine ⟨hval, ?_, by decide, by decide⟩
  rw [hval]
  intro hc
  injection hc with hc'
  exact PyExc.noConfusion hc'

/-- C10 witness: the masking at the concrete user of Scenario A. -/
theorem transport_error_masked_witness :
    deactivate_user userAlice theAccountId HttpOutcome.transportError =
      Except.error (PyExc.unboundLocal "response") ∧
    ¬(deactivate_user userAlice theAccountId HttpOutcome.transportError =
      Except.error PyExc.transport) ∧
    runFailed Option.none [(rowAlice, HttpOutcome.transportError)] = [userAlice] ∧
    runSummary Option.none [(rowAlice, HttpOutcome.transportError)] = Option.some (0, 1) :=
  transport_error_masked_by_unbound_local userAlice "usr1" rfl

end DeactivateUser
